import Mathlib

/-!
Verification development for the note synchronization and reconciliation
engine of a local-first note editor.

The embedding below translates the two source modules the claims are about:

* the Notes state controller (`NotesProvider`): the authoritative list of
  notes, the selected note, the current note record, search state, the
  external-change flag and the recently-saved set, together with the
  operations `selectNote`, `saveNote`, `search`, `clearSearch` and the
  file-change listener;
* the editor's autosave scheduler and load/reconcile effect
  (`Editor` component): dirty marking, the debounced save timer,
  `flushPendingSave`, `scheduleSave`, the `onUpdate` handler and the
  note-load reconciliation effect with its rename-echo detection.

Asynchronous operations are modelled by splitting them at their await
points into explicit phase functions; the state passed to a later phase is
the state at that resumption time, which may differ from the state at the
start of the operation (this is how mid-operation races are expressed).
Calls into the persistence layer (and other effects that leave the
component) are recorded in explicit effect traces.
-/

namespace NotesSync

/-- A full note record `{id, title, content, path, modified}`
(the `Note` type consumed by the controller). -/
structure Note where
  id : String
  title : String
  content : String
  path : String
  modified : Int
  deriving DecidableEq, Repr

/-- Note list metadata `{id, title, preview, modified}`. -/
structure NoteMetadata where
  id : String
  title : String
  preview : String
  modified : Int
  deriving DecidableEq, Repr

/-- A search result `{id, title, preview, modified, score}`. -/
structure SearchResult where
  id : String
  title : String
  preview : String
  modified : Int
  score : Int
  deriving DecidableEq, Repr

/-- The last-written (note id, content) pair kept in `lastSaveRef`
in the editor, used to recognize rename echoes. -/
structure SaveFingerprint where
  noteId : String
  content : String
  deriving DecidableEq, Repr

/-- JavaScript truthiness of a nullable string: `null`/`undefined` and the
empty string are falsy. -/
def optTruthy : Option String → Bool
  | some s => s ≠ ""
  | none => false

/-- The observable state of the `NotesProvider` controller, together with
the mutable refs it owns (`recentlySavedRef`, `searchRequestIdRef`). -/
structure CState where
  notes : List NoteMetadata
  selectedNoteId : Option String
  currentNote : Option Note
  error : Option String
  searchQuery : String
  searchResults : List SearchResult
  isSearching : Bool
  hasExternalChanges : Bool
  reloadVersion : Nat
  recentlySaved : List String
  searchRequestId : Nat
  deriving DecidableEq, Repr

/-- Effects the controller operations emit to the outside world:
persistence writes, settings writes, the debounced list refresh, and the
delayed removal of recently-saved marks. -/
inductive CEffect where
  | persistWrite (noteId content : String)
  | settingsWrite (pinnedNoteIds : List String)
  | refreshScheduled
  | unmarkScheduled (savedId updatedId : String)
  deriving DecidableEq, Repr

/-- `recentlySavedRef.current.add id` (a JS `Set`, so adding a present
element is a no-op). -/
def addRecent (l : List String) (id : String) : List String :=
  if l.contains id then l else id :: l

/-- `noteId || currentNote?.id`: JS `||` falls through on the falsy empty
string as well as on `undefined`. -/
def jsOrId (noteId : Option String) (cur : Option Note) : Option String :=
  match noteId with
  | some s => if s = "" then cur.map Note.id else some s
  | none => cur.map Note.id

/-- `selectNote(id)`, synchronous prefix before `readNote` resolves:
sets the selection optimistically and clears the external-change flag. -/
def selectNoteStart (s : CState) (id : String) : CState :=
  { s with selectedNoteId := some id, hasExternalChanges := false }

/-- `selectNote(id)` resumption on a successful read: stores the note. -/
def selectNoteSuccess (s : CState) (note : Note) : CState :=
  { s with currentNote := some note }

/-- `selectNote(id)` catch branch: records a human-readable error. -/
def selectNoteFailure (s : CState) (msg : String) : CState :=
  { s with error := some msg }

/-- A whole `selectNote(id)` call with no interleaved operation, the read
outcome supplied by the environment. -/
def selectNoteRun (s : CState) (id : String) (outcome : Except String Note) : CState :=
  match outcome with
  | Except.ok note => selectNoteSuccess (selectNoteStart s id) note
  | Except.error msg => selectNoteFailure (selectNoteStart s id) msg

/-- The continuation of `saveNote` after `notesService.saveNote` resolved
with `updated` (whose id may differ from `savingId`: a rename) and the
settings read returned `pinned`.  `s` is the controller state at this
resumption time — the selection may have moved while the write was in
flight.  Mirrors, in source order: marking the renamed id recently saved,
the pin-status transfer, clearing the external-change flag, the guarded
selection/content update, the debounced list refresh, and scheduling the
removal of the recently-saved marks. -/
def saveNoteComplete (s : CState) (savingId : String) (updated : Note)
    (pinned : List String) : CState × List CEffect :=
  let s1 := if updated.id ≠ savingId then
    { s with recentlySaved := addRecent s.recentlySaved updated.id } else s
  let pinEffects := if updated.id ≠ savingId ∧ pinned.contains savingId then
    [CEffect.settingsWrite (pinned.map (fun i => if i = savingId then updated.id else i))]
    else []
  let s2 := { s1 with hasExternalChanges := false }
  let s3 := if s2.selectedNoteId = some savingId then
    { s2 with currentNote := some updated, selectedNoteId := some updated.id } else s2
  (s3, pinEffects ++ [CEffect.refreshScheduled, CEffect.unmarkScheduled savingId updated.id])

/-- A whole `saveNote(content, noteId?)` call with no interleaved
operation: the target id is `noteId || currentNote?.id` and the call
returns at once when that is falsy; otherwise the id is marked recently
saved, the write is issued, and the completion continuation runs. -/
def saveNoteRun (s : CState) (content : String) (noteId : Option String)
    (updated : Note) (pinned : List String) : CState × List CEffect :=
  match jsOrId noteId s.currentNote with
  | none => (s, [])
  | some savingId =>
    if savingId = "" then (s, [])
    else
      let s1 := { s with recentlySaved := addRecent s.recentlySaved savingId }
      let r := saveNoteComplete s1 savingId updated pinned
      (r.fst, CEffect.persistWrite savingId content :: r.snd)

/-- The `file-change` listener body: drop changed ids present in the
recently-saved set; if any remain, refresh the list (returned boolean) and
flag the selected note when it is among the remaining ids. -/
def handleFileChange (s : CState) (changedIds : List String) : CState × Bool :=
  if 0 < (changedIds.filter (fun id => !(s.recentlySaved.contains id))).length then
    match s.selectedNoteId with
    | some cid =>
      if cid ≠ "" ∧
          (changedIds.filter (fun id => !(s.recentlySaved.contains id))).contains cid then
        ({ s with hasExternalChanges := true }, true)
      else (s, true)
    | none => (s, true)
  else (s, false)

/-- Leading match of a pattern against a character list (the pattern is
the first argument). -/
def leadMatch : List Char → List Char → Bool
  | [], _ => true
  | _ :: _, [] => false
  | p :: ps, c :: cs => p = c && leadMatch ps cs

/-- Substring containment on character lists, the semantics of JavaScript
`String.prototype.includes`. -/
def hasSub (pat : List Char) : List Char → Bool
  | [] => leadMatch pat []
  | c :: rest => leadMatch pat (c :: rest) || hasSub pat rest

/-- `s.includes(pat)` on strings. -/
def strIncludes (s pat : String) : Bool :=
  hasSub pat.data s.data

/-- `s.trim()`: drop whitespace from both ends. -/
def strTrim (s : String) : String :=
  ⟨((s.data.dropWhile Char.isWhitespace).reverse.dropWhile Char.isWhitespace).reverse⟩

/-- `s.toLowerCase()`: lowercase character by character. -/
def strLower (s : String) : String :=
  ⟨s.data.map Char.toLower⟩

/-- The instant local result list of `search`: metadata whose lowercased
title or preview contains the lowercased query, capped at 20, mapped to
provisional results with score 0. -/
def instantResults (notes : List NoteMetadata) (queryLower : String) : List SearchResult :=
  ((notes.filter (fun note =>
      strIncludes (strLower note.title) queryLower ||
      strIncludes (strLower note.preview) queryLower)).take 20).map
    (fun note =>
      { id := note.id, title := note.title, preview := note.preview,
        modified := note.modified, score := 0 })

/-- `search(query)`, synchronous prefix before `searchNotes` resolves:
bumps the request id, records the query; a whitespace-only query clears
the results and stops (no request is issued, second component `none`);
otherwise the instant results are displayed at once and the request
`(requestId, trimmedQuery, instantResults)` is issued. -/
def searchStart (s : CState) (query : String) :
    CState × Option (Nat × String × List SearchResult) :=
  let rid := s.searchRequestId + 1
  let s1 := { s with searchRequestId := rid, searchQuery := query }
  let trimmed := strTrim query
  if trimmed = "" then
    ({ s1 with searchResults := [], isSearching := false }, none)
  else
    let inst := instantResults s1.notes (strLower trimmed)
    ({ s1 with searchResults := inst, isSearching := true },
     some (rid, trimmed, inst))

/-- `search(query)` resumption when the authoritative call settles:
a request id that is no longer the latest is discarded without touching
state; otherwise an empty authoritative answer keeps the instant results,
a non-empty one is merged first with the instant matches not already
present (dedup by id), and a failure only clears the searching flag. -/
def searchResolveRun (s : CState) (rid : Nat) (inst : List SearchResult)
    (outcome : Except String (List SearchResult)) : CState :=
  if rid ≠ s.searchRequestId then s
  else
    match outcome with
    | Except.ok results =>
      if results.length = 0 then
        { s with searchResults := inst, isSearching := false }
      else
        let seen := results.map SearchResult.id
        let merged := results ++ inst.filter (fun r => !(seen.contains r.id))
        { s with searchResults := merged, isSearching := false }
    | Except.error _ => { s with isSearching := false }

/-- `clearSearch()`: bumps the request id (invalidating any in-flight
response) and clears query, results and the searching flag. -/
def clearSearch (s : CState) : CState :=
  { s with searchRequestId := s.searchRequestId + 1, searchQuery := "",
           searchResults := [], isSearching := false }

/-- The editor-side mutable state: the buffer (abstracted to its canonical
serialized content, which is what `getMarkdown` returns), the refs
`loadedNoteIdRef`, `loadedModifiedRef`, `lastSaveRef`,
`lastReloadVersionRef`, `needsSaveRef`, `saveTimeoutRef` (recorded with
the `savingNoteId` the timer closure captured), `currentNoteIdRef`,
`isLoadingRef`, and the source-mode toggle. -/
structure EditorState where
  buffer : String
  loadedNoteId : Option String
  loadedModified : Option Int
  lastSave : Option SaveFingerprint
  lastReloadVersion : Nat
  needsSave : Bool
  pendingTimer : Option String
  currentNoteId : Option String
  isLoading : Bool
  sourceMode : Bool
  deriving DecidableEq, Repr

/-- Editor-side effects: a persistence call (`saveNote(content, noteId)`
reaching the controller), a buffer content replacement, a blur, and a
scroll to top. -/
inductive EAction where
  | persist (noteId content : String)
  | setContent (content : String)
  | blurEditor
  | scrollTop
  deriving DecidableEq, Repr

/-- `flushPendingSave()`: cancels the pending timer and, when dirty and a
note is loaded, clears the dirty flag, serializes the buffer, records the
save fingerprint (in `saveImmediately`) and issues the persistence call
under the loaded note id. -/
def flushPendingSave (es : EditorState) : EditorState × List EAction :=
  let es1 := { es with pendingTimer := none }
  match es1.loadedNoteId with
  | some nid =>
    if es1.needsSave ∧ nid ≠ "" then
      ({ es1 with needsSave := false,
                  lastSave := some { noteId := nid, content := es1.buffer } },
       [EAction.persist nid es1.buffer])
    else (es1, [])
  | none => (es1, [])

/-- `scheduleSave()`: cancels the pending timer; when no note is current
it stops there, otherwise it marks dirty and arms a fresh debounce timer
whose closure captures the current note id. -/
def scheduleSave (es : EditorState) : EditorState :=
  let es1 := { es with pendingTimer := none }
  match es1.currentNoteId with
  | some id =>
    if id ≠ "" then { es1 with needsSave := true, pendingTimer := some id }
    else es1
  | none => es1

/-- The `onUpdate` editor callback for a buffer mutation that left the
buffer in state `newBuffer`: during a programmatic load nothing is
scheduled, otherwise `scheduleSave` runs. -/
def onUpdate (es : EditorState) (newBuffer : String) : EditorState :=
  let es1 := { es with buffer := newBuffer }
  if es1.isLoading then es1 else scheduleSave es1

/-- The armed debounce timer firing: it is a no-op when the note identity
captured at arm time is no longer current or the dirty flag was cleared
meanwhile; otherwise it clears the dirty flag, serializes the buffer,
records the fingerprint and issues the persistence call. -/
def timerFire (es : EditorState) : EditorState × List EAction :=
  match es.pendingTimer with
  | none => (es, [])
  | some savingId =>
    let es1 := { es with pendingTimer := none }
    if es1.currentNoteId = some savingId ∧ es1.needsSave then
      ({ es1 with needsSave := false,
                  lastSave := some { noteId := savingId, content := es1.buffer } },
       [EAction.persist savingId es1.buffer])
    else (es1, [])

/-- The rename-echo test of the load effect:
`lastSave?.noteId === loadedNoteIdRef.current && lastSave?.content === currentNote.content`. -/
def fingerprintMatches (es : EditorState) (note : Note) : Bool :=
  match es.lastSave with
  | some f => decide (es.loadedNoteId = some f.noteId) && decide (f.content = note.content)
  | none => false

/-- The note load/reconcile effect, run when the presented note or the
reload version changes.  In source order: the rename-echo branch (adopt
the new identity, clear the fingerprint, flush if dirty, return), the
pre-switch flush, the source-mode reset, then same-identity bookkeeping or
manual reload, or the genuine-switch content replacement. -/
def reconcile (es : EditorState) (note : Note) (rv : Nat) :
    EditorState × List EAction :=
  let isSameNote : Bool := es.loadedNoteId = some note.id
  if !isSameNote && fingerprintMatches es note then
    let es1 := { es with loadedNoteId := some note.id,
                         loadedModified := some note.modified,
                         lastSave := none,
                         currentNoteId := some note.id }
    if es1.needsSave then flushPendingSave es1 else (es1, [])
  else
    let pre := if !isSameNote && es.needsSave then
      flushPendingSave { es with currentNoteId := some note.id }
      else ({ es with currentNoteId := some note.id }, [])
    let es2 := if !isSameNote then { pre.fst with sourceMode := false } else pre.fst
    let isManualReload : Bool := rv ≠ es2.lastReloadVersion
    if isSameNote then
      if isManualReload then
        ({ es2 with lastReloadVersion := rv, loadedModified := some note.modified,
                    buffer := note.content, isLoading := false },
         pre.snd ++ [EAction.setContent note.content])
      else
        ({ es2 with loadedModified := some note.modified }, pre.snd)
    else
      ({ es2 with loadedNoteId := some note.id, loadedModified := some note.modified,
                  buffer := note.content, isLoading := true },
       pre.snd ++ [EAction.blurEditor, EAction.setContent note.content, EAction.scrollTop])

/-- An editor event: a user buffer mutation, the debounce timer firing, or
an explicit flush. -/
inductive EEvent where
  | mutate (newBuffer : String)
  | fire
  | flush
  deriving DecidableEq, Repr

/-- One editor event step. -/
def estep (es : EditorState) : EEvent → EditorState × List EAction
  | EEvent.mutate b => (onUpdate es b, [])
  | EEvent.fire => timerFire es
  | EEvent.flush => flushPendingSave es

/-- Run a sequence of editor events, concatenating the emitted effects. -/
def erun (es : EditorState) : List EEvent → EditorState × List EAction
  | [] => (es, [])
  | e :: rest =>
    let r1 := estep es e
    let r2 := erun r1.fst rest
    (r2.fst, r1.snd ++ r2.snd)

/-- The primitive statements a persist step of the autosave scheduler is
made of, used to talk about their order within one event-loop turn. -/
inductive SaveMicroOp where
  | cancelTimer
  | checkIdentityAndDirty
  | clearDirty
  | serializeBuffer
  | persistCall
  deriving DecidableEq, Repr

/-- The statement order of the debounce timer callback inside
`scheduleSave`: the identity/dirty guard, `needsSaveRef.current = false`,
`getMarkdown(...)`, then `saveImmediately(...)`. -/
def timerFireOps : List SaveMicroOp :=
  [SaveMicroOp.checkIdentityAndDirty, SaveMicroOp.clearDirty,
   SaveMicroOp.serializeBuffer, SaveMicroOp.persistCall]

/-- The statement order of `flushPendingSave`: `clearTimeout`, the
dirty/loaded guard, `needsSaveRef.current = false`, `getMarkdown(...)`,
then `saveImmediately(...)`. -/
def flushPendingSaveOps : List SaveMicroOp :=
  [SaveMicroOp.cancelTimer, SaveMicroOp.checkIdentityAndDirty,
   SaveMicroOp.clearDirty, SaveMicroOp.serializeBuffer, SaveMicroOp.persistCall]

/-- Index of the first occurrence of a micro-op in a list (length when
absent). -/
def opIndex (op : SaveMicroOp) : List SaveMicroOp → Nat
  | [] => 0
  | o :: rest => if o = op then 0 else opIndex op rest + 1

/-- Concrete fixture: a note with id `"a"`. -/
def noteA : Note :=
  { id := "a", title := "A", content := "alpha", path := "/n/a.md", modified := 1 }

/-- Concrete fixture: a note with id `"b"`. -/
def noteB : Note :=
  { id := "b", title := "B", content := "beta", path := "/n/b.md", modified := 2 }

/-- Concrete fixture: metadata for note `"a"`. -/
def metaA : NoteMetadata :=
  { id := "a", title := "Alpha note", preview := "alpha body", modified := 1 }

/-- Concrete fixture: metadata for note `"b"`. -/
def metaB : NoteMetadata :=
  { id := "b", title := "Beta note", preview := "beta body", modified := 2 }

/-- Concrete fixture: a controller state with note `"a"` selected. -/
def baseState : CState :=
  { notes := [metaA, metaB], selectedNoteId := some "a", currentNote := some noteA,
    error := none, searchQuery := "", searchResults := [], isSearching := false,
    hasExternalChanges := false, reloadVersion := 0, recentlySaved := [],
    searchRequestId := 0 }

/-- Concrete fixture: a controller state with nothing selected. -/
def emptyState : CState :=
  { baseState with selectedNoteId := none, currentNote := none }

/-- Concrete fixture: an editor state with note `"a"` loaded and clean. -/
def baseEditor : EditorState :=
  { buffer := "alpha", loadedNoteId := some "a", loadedModified := some 1,
    lastSave := none, lastReloadVersion := 0, needsSave := false,
    pendingTimer := none, currentNoteId := some "a", isLoading := false,
    sourceMode := false }

/-- Concrete fixture: an editor state with a dirty buffer and an armed
debounce timer for note `"a"`. -/
def dirtyEditor : EditorState :=
  { baseEditor with needsSave := true, pendingTimer := some "a", buffer := "draft" }

/-- Concrete fixture: an editor state mid-rename: note `"a"` is loaded,
the last save wrote `"beta"` under id `"a"`, and the user kept typing
(dirty buffer `"alpha typed"`). -/
def renameEditor : EditorState :=
  { baseEditor with lastSave := some { noteId := "a", content := "beta" },
                    needsSave := true, buffer := "alpha typed" }

/-- C10: with no explicit note id and no current note, `saveNote` resolves
no target id and returns at once: the state is untouched and no effect
(write, recently-saved mark, refresh, unmark timer) is emitted. -/
theorem saveNote_no_current_note_noop (s : CState) (content : String)
    (updated : Note) (pinned : List String) (h : s.currentNote = none) :
    saveNoteRun s content none updated pinned = (s, []) := by
  unfold saveNoteRun jsOrId
  rw [h]
  rfl

/-- Witness for C10 at a concrete state with no current note. -/
theorem saveNote_no_current_note_noop_witness :
    emptyState.currentNote = none ∧
    saveNoteRun emptyState "hello" none noteB [] = (emptyState, []) :=
  ⟨rfl, saveNote_no_current_note_noop emptyState "hello" noteB [] rfl⟩

/-- C1: the completion step of `saveNote` (its continuation after the
write resolves) reads the selection at completion time: it moves the
selection and the current-note record to the note returned by persistence
exactly when the selection still equals the id that was being saved, and
leaves both untouched when the user switched notes while the save was in
flight. -/
theorem saveNote_completion_respects_selection (s : CState) (savingId : String)
    (updated : Note) (pinned : List String) :
    (s.selectedNoteId = some savingId →
      (saveNoteComplete s savingId updated pinned).fst.selectedNoteId = some updated.id ∧
      (saveNoteComplete s savingId updated pinned).fst.currentNote = some updated) ∧
    (s.selectedNoteId ≠ some savingId →
      (saveNoteComplete s savingId updated pinned).fst.selectedNoteId = s.selectedNoteId ∧
      (saveNoteComplete s savingId updated pinned).fst.currentNote = s.currentNote) := by
  refine ⟨fun h => ?_, fun h => ?_⟩ <;>
  · simp only [saveNoteComplete]
    split_ifs <;> simp_all

/-- Witness for C1: a save of note `"a"` completing as a rename to `"b"`
while the selection moved to `"b"`... selection still on `"a"` updates;
the same completion against a state whose selection moved is inert. -/
theorem saveNote_completion_respects_selection_witness :
    (baseState.selectedNoteId = some "a" ∧
      (saveNoteComplete baseState "a" noteB []).fst.selectedNoteId = some noteB.id ∧
      (saveNoteComplete baseState "a" noteB []).fst.currentNote = some noteB) ∧
    (baseState.selectedNoteId ≠ some "b" ∧
      (saveNoteComplete baseState "b" noteB []).fst.selectedNoteId = baseState.selectedNoteId ∧
      (saveNoteComplete baseState "b" noteB []).fst.currentNote = baseState.currentNote) :=
  ⟨⟨rfl, (saveNote_completion_respects_selection baseState "a" noteB []).1 rfl⟩,
   ⟨by decide, (saveNote_completion_respects_selection baseState "b" noteB []).2 (by decide)⟩⟩

/-- C7 counterexample: a failed `selectNote("b")` from a state with `"a"`
selected leaves the selection at `"b"`, not at the prior `"a"`: the
optimistic selection update is not rolled back on read failure. -/
theorem selectNote_failure_moves_selection :
    (selectNoteRun baseState "b" (Except.error "Failed to load note")).selectedNoteId
      ≠ baseState.selectedNoteId := by decide

/-- C7 amended: when the read fails, `selectNote` reports a human-readable
error and leaves the current-note record (and the rest of the state)
unchanged, but the selection has already been optimistically moved to the
requested id (and the external-change flag cleared) and is not rolled
back. -/
theorem selectNote_read_failure_soft (s : CState) (id msg : String) :
    (selectNoteRun s id (Except.error msg)).error = some msg ∧
    (selectNoteRun s id (Except.error msg)).currentNote = s.currentNote ∧
    (selectNoteRun s id (Except.error msg)).selectedNoteId = some id ∧
    (selectNoteRun s id (Except.error msg)).hasExternalChanges = false ∧
    (selectNoteRun s id (Except.error msg)).notes = s.notes ∧
    (selectNoteRun s id (Except.error msg)).searchResults = s.searchResults ∧
    (selectNoteRun s id (Except.error msg)).recentlySaved = s.recentlySaved := by
  simp [selectNoteRun, selectNoteStart, selectNoteFailure]

/-- Membership in the filtered `externalChanges` list of the file-change
listener: the changed ids that are not recently saved. -/
theorem mem_externalChanges (s : CState) (changedIds : List String) (a : String) :
    a ∈ changedIds.filter (fun id => !(s.recentlySaved.contains id)) ↔
      a ∈ changedIds ∧ a ∉ s.recentlySaved := by
  rw [List.mem_filter]
  simp [List.elem_iff]

/-- C4: processing a file-change notification sets the external-change
flag (beyond its prior value) exactly when some changed id outside the
recently-saved set equals the selected note id; in particular a changed id
that is in the recently-saved set never sets the flag. -/
theorem fileChange_flag_only_external (s : CState) (changedIds : List String) :
    (handleFileChange s changedIds).fst.hasExternalChanges = true ↔
      (s.hasExternalChanges = true ∨
        ∃ cid, s.selectedNoteId = some cid ∧ cid ≠ "" ∧
          cid ∈ changedIds ∧ cid ∉ s.recentlySaved) := by
  constructor
  · intro h
    unfold handleFileChange at h
    split at h
    · split at h
      · rename_i cid hsel
        split at h
        · rename_i hc
          have hm := (mem_externalChanges s changedIds cid).mp (List.elem_iff.mp hc.2)
          exact Or.inr ⟨cid, hsel, hc.1, hm.1, hm.2⟩
        · exact Or.inl h
      · exact Or.inl h
    · exact Or.inl h
  · intro h
    rcases h with h | ⟨cid, hsel, hne, hmem, hns⟩
    · unfold handleFileChange
      split
      · split
        · split
          · rfl
          · exact h
        · exact h
      · exact h
    · have hmemf : cid ∈ changedIds.filter (fun id => !(s.recentlySaved.contains id)) :=
        (mem_externalChanges s changedIds cid).mpr ⟨hmem, hns⟩
      have hlen : 0 < (changedIds.filter (fun id => !(s.recentlySaved.contains id))).length :=
        List.length_pos.mpr (by intro hnil; rw [hnil] at hmemf; exact List.not_mem_nil cid hmemf)
      have hc : cid ≠ "" ∧
          (changedIds.filter (fun id => !(s.recentlySaved.contains id))).contains cid = true :=
        ⟨hne, List.elem_iff.mpr hmemf⟩
      unfold handleFileChange
      rw [if_pos hlen, hsel]
      dsimp only
      rw [if_pos hc]

/-- C5: a file-change notification carrying the selected note's id while
that id is not in the recently-saved set sets the external-change flag,
triggers a list refresh, and leaves the current-note record untouched. -/
theorem fileChange_external_selected_flags (s : CState) (changedIds : List String)
    (cid : String) (hsel : s.selectedNoteId = some cid) (hne : cid ≠ "")
    (hmem : cid ∈ changedIds) (hns : cid ∉ s.recentlySaved) :
    (handleFileChange s changedIds).fst.hasExternalChanges = true ∧
    (handleFileChange s changedIds).snd = true ∧
    (handleFileChange s changedIds).fst.currentNote = s.currentNote := by
  have hmemf : cid ∈ changedIds.filter (fun id => !(s.recentlySaved.contains id)) :=
    (mem_externalChanges s changedIds cid).mpr ⟨hmem, hns⟩
  have hlen : 0 < (changedIds.filter (fun id => !(s.recentlySaved.contains id))).length :=
    List.length_pos.mpr (by intro hnil; rw [hnil] at hmemf; exact List.not_mem_nil cid hmemf)
  have hc : cid ≠ "" ∧
      (changedIds.filter (fun id => !(s.recentlySaved.contains id))).contains cid = true :=
    ⟨hne, List.elem_iff.mpr hmemf⟩
  unfold handleFileChange
  rw [if_pos hlen, hsel]
  dsimp only
  rw [if_pos hc]
  exact ⟨rfl, rfl, rfl⟩

/-- Witness for C5: note `"a"` is selected, `"a"` changed on disk and is
not recently saved. -/
theorem fileChange_external_selected_flags_witness :
    (baseState.selectedNoteId = some "a" ∧ ("a" : String) ∈ ["a", "c"] ∧
      ("a" : String) ∉ baseState.recentlySaved) ∧
    (handleFileChange baseState ["a", "c"]).fst.hasExternalChanges = true ∧
    (handleFileChange baseState ["a", "c"]).snd = true ∧
    (handleFileChange baseState ["a", "c"]).fst.currentNote = baseState.currentNote :=
  ⟨⟨rfl, by decide, by decide⟩,
   fileChange_external_selected_flags baseState ["a", "c"] "a" rfl (by decide)
     (by decide) (by decide)⟩

/-- C8: a whitespace-only query clears the results synchronously and
issues no request; a non-empty query displays the instant local matches
(case-insensitive substring over title and preview, capped at 20, score 0)
immediately; an empty authoritative answer for the latest request keeps
the instant results; a non-empty one is displayed first, followed by
exactly those instant matches whose id is not among the authoritative
results. -/
theorem search_instant_then_merge (s : CState) (q : String)
    (inst results : List SearchResult) :
    (strTrim q = "" →
      (searchStart s q).fst.searchResults = [] ∧
      (searchStart s q).fst.isSearching = false ∧
      (searchStart s q).snd = none) ∧
    (strTrim q ≠ "" →
      (searchStart s q).fst.searchResults = instantResults s.notes (strLower (strTrim q)) ∧
      (searchStart s q).fst.isSearching = true ∧
      (searchStart s q).snd =
        some (s.searchRequestId + 1, strTrim q, instantResults s.notes (strLower (strTrim q)))) ∧
    ((searchResolveRun s s.searchRequestId inst (Except.ok [])).searchResults = inst) ∧
    (results ≠ [] →
      (searchResolveRun s s.searchRequestId inst (Except.ok results)).searchResults =
        results ++ inst.filter (fun r => !((results.map SearchResult.id).contains r.id))) := by
  refine ⟨fun h => ?_, fun h => ?_, ?_, fun h => ?_⟩
  · simp [searchStart, h]
  · simp [searchStart, h]
  · simp [searchResolveRun]
  · simp [searchResolveRun, h, List.length_eq_zero]

/-- Witness for C8: query `"al"` against the fixture list shows the
instant matches; a whitespace query clears synchronously. -/
theorem search_instant_then_merge_witness :
    (strTrim "al" ≠ "" ∧
      (searchStart baseState "al").fst.searchResults =
        instantResults baseState.notes (strLower (strTrim "al"))) ∧
    (strTrim " " = "" ∧ (searchStart baseState " ").fst.searchResults = []) :=
  ⟨⟨by decide, ((search_instant_then_merge baseState "al" [] []).2.1 (by decide)).1⟩,
   ⟨by decide, ((search_instant_then_merge baseState " " [] []).1 (by decide)).1⟩⟩

/-- The request id after the synchronous prefix of `search` is the
incremented one. -/
theorem searchStart_requestId (s : CState) (q : String) :
    (searchStart s q).fst.searchRequestId = s.searchRequestId + 1 := by
  simp only [searchStart]
  split <;> rfl

/-- Resolving a search response never changes the request id counter. -/
theorem searchResolve_requestId (s : CState) (rid : Nat) (inst : List SearchResult)
    (oc : Except String (List SearchResult)) :
    (searchResolveRun s rid inst oc).searchRequestId = s.searchRequestId := by
  unfold searchResolveRun
  split
  · rfl
  · cases oc with
    | ok results => dsimp only; split <;> rfl
    | error e => rfl

/-- A response whose request id is not the latest is discarded without
touching the state. -/
theorem searchResolve_stale_discarded (s : CState) (rid : Nat)
    (inst : List SearchResult) (oc : Except String (List SearchResult))
    (h : rid ≠ s.searchRequestId) :
    searchResolveRun s rid inst oc = s := by
  unfold searchResolveRun
  rw [if_pos h]

/-- C9: search request ids are strictly increasing (each `search` and
`clearSearch` bumps the counter by one); a response whose request id is no
longer the latest is discarded without modifying any state; consequently,
after two searches, resolving the later request and then the earlier one
leaves exactly the later request's outcome in place. -/
theorem search_stale_response_suppression (s : CState) (q q1 q2 : String) (rid : Nat)
    (inst inst1 inst2 res1 res2 : List SearchResult)
    (oc : Except String (List SearchResult)) :
    (searchStart s q).fst.searchRequestId = s.searchRequestId + 1 ∧
    (clearSearch s).searchRequestId = s.searchRequestId + 1 ∧
    (rid ≠ s.searchRequestId → searchResolveRun s rid inst oc = s) ∧
    (searchResolveRun
        (searchResolveRun (searchStart (searchStart s q1).fst q2).fst
          (s.searchRequestId + 2) inst2 (Except.ok res2))
        (s.searchRequestId + 1) inst1 (Except.ok res1) =
      searchResolveRun (searchStart (searchStart s q1).fst q2).fst
        (s.searchRequestId + 2) inst2 (Except.ok res2)) := by
  refine ⟨searchStart_requestId s q, rfl,
    fun h => searchResolve_stale_discarded s rid inst oc h, ?_⟩
  apply searchResolve_stale_discarded
  rw [searchResolve_requestId, searchStart_requestId, searchStart_requestId]
  omega

/-- Witness for C9 at a concrete stale request id. -/
theorem search_stale_response_suppression_witness :
    (5 ≠ baseState.searchRequestId) ∧
    searchResolveRun baseState 5 [] (Except.ok []) = baseState :=
  ⟨by decide,
   (search_stale_response_suppression baseState "" "" "" 5 [] [] [] [] []
      (Except.ok [])).2.2.1 (by decide)⟩

/-- C2: when the presented note's identity differs from the loaded one but
the prior (id, content) pair equals the last save fingerprint (a rename
echo), the reconcile effect adopts the new identity without replacing
buffer content (no `setContent`, the buffer field is untouched), clears
the rename fingerprint, and — exactly when the dirty flag is set — issues
one immediate flush save under the new identity (which records its own
fingerprint); when clean, no save is issued at all. -/
theorem rename_echo_adopts_identity (es : EditorState) (note : Note) (rv : Nat)
    (f : SaveFingerprint) (hdiff : es.loadedNoteId ≠ some note.id)
    (hf : es.lastSave = some f) (hfid : es.loadedNoteId = some f.noteId)
    (hfc : f.content = note.content) (hne : note.id ≠ "") :
    (reconcile es note rv).fst.loadedNoteId = some note.id ∧
    (reconcile es note rv).fst.buffer = es.buffer ∧
    (reconcile es note rv).fst.loadedModified = some note.modified ∧
    (es.needsSave = true →
      (reconcile es note rv).snd = [EAction.persist note.id es.buffer] ∧
      (reconcile es note rv).fst.needsSave = false ∧
      (reconcile es note rv).fst.lastSave =
        some { noteId := note.id, content := es.buffer }) ∧
    (es.needsSave = false →
      (reconcile es note rv).snd = [] ∧
      (reconcile es note rv).fst.lastSave = none) := by
  have hmatch : fingerprintMatches es note = true := by
    unfold fingerprintMatches
    rw [hf]
    simp [hfid, hfc]
  cases hns : es.needsSave with
  | false => simp [reconcile, hmatch, hdiff, hns]
  | true => simp [reconcile, hmatch, hdiff, hns, flushPendingSave, hne]

/-- Witness for C2: note `"a"` loaded, fingerprint `("a", "beta")`, the
renamed note `"b"` with content `"beta"` arrives while dirty: one persist
under `"b"` with the typed buffer, identity adopted. -/
theorem rename_echo_adopts_identity_witness :
    (renameEditor.loadedNoteId ≠ some noteB.id ∧ renameEditor.needsSave = true) ∧
    (reconcile renameEditor noteB 0).fst.loadedNoteId = some noteB.id ∧
    (reconcile renameEditor noteB 0).snd =
      [EAction.persist noteB.id renameEditor.buffer] :=
  ⟨⟨by decide, rfl⟩,
   (rename_echo_adopts_identity renameEditor noteB 0
      { noteId := "a", content := "beta" } (by decide) rfl rfl rfl (by decide)).1,
   ((rename_echo_adopts_identity renameEditor noteB 0
      { noteId := "a", content := "beta" } (by decide) rfl rfl rfl (by decide)).2.2.2.1
     rfl).1⟩

/-- Running an event list splits along concatenation, effects
concatenating in order. -/
theorem erun_append (es : EditorState) (l1 l2 : List EEvent) :
    erun es (l1 ++ l2) =
      ((erun (erun es l1).fst l2).fst,
       (erun es l1).snd ++ (erun (erun es l1).fst l2).snd) := by
  induction l1 generalizing es with
  | nil => simp [erun]
  | cons e rest ih => simp [erun, ih, List.append_assoc]

/-- A run of buffer mutations (each within the debounce window, so each
cancels and re-arms the timer) issues no persistence call; it leaves the
buffer at the final mutation, the dirty flag set and the timer armed for
the current note. -/
theorem mutate_run_state (id : String) (hne : id ≠ "") :
    ∀ (bufs : List String) (es : EditorState) (b : String),
      es.currentNoteId = some id → es.isLoading = false →
      erun es ((bufs ++ [b]).map EEvent.mutate) =
        ({ es with buffer := b, needsSave := true, pendingTimer := some id }, []) := by
  intro bufs
  induction bufs with
  | nil =>
    intro es b h1 h2
    simp [erun, estep, onUpdate, scheduleSave, h1, h2, hne]
  | cons a rest ih =>
    intro es b h1 h2
    have h1' : (onUpdate es a).currentNoteId = some id := by
      simp [onUpdate, scheduleSave, h1, h2, hne]
    have h2' : (onUpdate es a).isLoading = false := by
      simp [onUpdate, scheduleSave, h1, h2, hne]
    simp only [List.cons_append, List.map_cons, erun, estep, List.append_eq]
    rw [ih (onUpdate es a) b h1' h2']
    simp [onUpdate, scheduleSave, h1, h2, hne]

/-- C3: a nonempty sequence of buffer mutations whose gaps all stay inside
the debounce window (so no timer fires in between), followed by the single
surviving timer firing with no flush, switch or further mutation, issues
exactly one persistence call, carrying the serialization of the final
buffer state; the earlier mutations issue no write at all. -/
theorem debounce_single_final_save (es : EditorState) (id : String)
    (bufs : List String) (b : String) (hid : es.currentNoteId = some id)
    (hne : id ≠ "") (hload : es.isLoading = false) :
    (erun es ((bufs ++ [b]).map EEvent.mutate ++ [EEvent.fire])).snd =
      [EAction.persist id b] ∧
    (erun es ((bufs ++ [b]).map EEvent.mutate ++ [EEvent.fire])).fst.needsSave = false := by
  rw [erun_append, mutate_run_state id hne bufs es b hid hload]
  simp [erun, estep, timerFire, hid]

/-- Witness for C3: three rapid keystrokes on note `"a"` followed by the
timer firing persist only the final buffer `"hel"`. -/
theorem debounce_single_final_save_witness :
    (baseEditor.currentNoteId = some "a" ∧ baseEditor.isLoading = false) ∧
    (erun baseEditor ((["h", "he"] ++ ["hel"]).map EEvent.mutate ++ [EEvent.fire])).snd =
      [EAction.persist "a" "hel"] :=
  ⟨⟨rfl, rfl⟩,
   (debounce_single_final_save baseEditor "a" ["h", "he"] "hel" rfl (by decide) rfl).1⟩

/-- C6 counterexample: in both persist paths — the debounce timer callback
and `flushPendingSave` — the statement clearing the dirty flag comes
before the serialization statement, not after it: the claimed order
"clear dirty only after the serialize step, never before" does not hold of
the code. -/
theorem dirty_cleared_before_serialize :
    opIndex SaveMicroOp.clearDirty timerFireOps <
      opIndex SaveMicroOp.serializeBuffer timerFireOps ∧
    opIndex SaveMicroOp.clearDirty flushPendingSaveOps <
      opIndex SaveMicroOp.serializeBuffer flushPendingSaveOps := by
  decide

/-- C6 amended: the dirty flag is cleared immediately before serialization
but within the same atomic (synchronous, single event-loop turn) step, so
no mutation can arrive between the clear and the serialize: a firing timer
persists exactly the buffer as of that step, and any mutation arriving
after it re-dirties, re-arms the timer, and is persisted by the next fire
— no edit is lost. -/
theorem dirty_clear_atomic_with_serialize (es : EditorState) (id : String)
    (h1 : es.pendingTimer = some id) (h2 : es.currentNoteId = some id)
    (h3 : es.needsSave = true) (h4 : es.isLoading = false) (h5 : id ≠ "") :
    (timerFire es).snd = [EAction.persist id es.buffer] ∧
    (timerFire es).fst.needsSave = false ∧
    (∀ b, (onUpdate (timerFire es).fst b).needsSave = true ∧
          (timerFire (onUpdate (timerFire es).fst b)).snd = [EAction.persist id b]) := by
  refine ⟨?_, ?_, fun b => ⟨?_, ?_⟩⟩ <;>
    simp [timerFire, onUpdate, scheduleSave, h1, h2, h3, h4, h5]

/-- Witness for C6 (amended) at a concrete dirty editor state. -/
theorem dirty_clear_atomic_with_serialize_witness :
    (dirtyEditor.pendingTimer = some "a" ∧ dirtyEditor.needsSave = true) ∧
    (timerFire dirtyEditor).snd = [EAction.persist "a" dirtyEditor.buffer] :=
  ⟨⟨rfl, rfl⟩,
   (dirty_clear_atomic_with_serialize dirtyEditor "a" rfl rfl rfl rfl (by decide)).1⟩

end NotesSync
